import Mathlib

/-
Verification of the h2ogpt client wrapper (client/h2ogpt_client/core.py).

The module exposes two closed enumerations (PromptType, LangChainMode), a
Client holding a gradio transport handle, and a TextCompletion request
builder with a blocking `create` and a suspending `create_async` method,
both forwarding one positional argument list to the fixed endpoint
"/submit_nochat".

Embedding notes:
* Python values appearing in the positional argument list are modelled by
  the sum type `GValue` (strings, booleans, ints, floats, lists of strings).
  Float parameters are only forwarded, never computed with, so they are
  modelled as rationals.
* The keyword parameters of `create` / `create_async` with their default
  values are modelled as the structure `CreateParams` with field defaults.
* The single call to `Client._predict` (resp. `_predict_async`) in the
  method body is modelled by the `Request` value it receives (positional
  arguments plus `api_name`), and operationally by explicit state passing
  over `ClientState`, which logs every submission made to the transport.
-/

namespace H2ogptClient

/-- The `PromptType` enumeration of core.py: fifteen members, in source
definition order, each carrying a string `value`. -/
inductive PromptType
  | DAI_FAQ
  | HUMAN_BOT
  | HUMAN_BOT_ORIGINAL
  | INSTRUCT
  | INSTRUCT_SIMPLE
  | INSTRUCT_VICUNA
  | INSTRUCT_WITH_END
  | OPEN_ASSISTANT
  | PLAIN
  | PROMPT_ANSWER
  | QUALITY
  | SIMPLE_INSTRUCT
  | SUMMARIZE
  | WIZARD_LM
  | WIZARD_MEGA
  deriving DecidableEq, Repr

/-- The string value attached to each `PromptType` member in core.py. -/
def PromptType.value : PromptType → String
  | .DAI_FAQ => "dai_faq"
  | .HUMAN_BOT => "human_bot"
  | .HUMAN_BOT_ORIGINAL => "human_bot_orig"
  | .INSTRUCT => "instruct"
  | .INSTRUCT_SIMPLE => "instruct_simple"
  | .INSTRUCT_VICUNA => "instruct_vicuna"
  | .INSTRUCT_WITH_END => "instruct_with_end"
  | .OPEN_ASSISTANT => "open_assistant"
  | .PLAIN => "plain"
  | .PROMPT_ANSWER => "prompt_answer"
  | .QUALITY => "quality"
  | .SIMPLE_INSTRUCT => "simple_instruct"
  | .SUMMARIZE => "summarize"
  | .WIZARD_LM => "wizard_lm"
  | .WIZARD_MEGA => "wizard_mega"

/-- All members of `PromptType`, in Python definition order (= iteration
order of the Python Enum). -/
def PromptType.values : List PromptType :=
  [.DAI_FAQ, .HUMAN_BOT, .HUMAN_BOT_ORIGINAL, .INSTRUCT, .INSTRUCT_SIMPLE,
   .INSTRUCT_VICUNA, .INSTRUCT_WITH_END, .OPEN_ASSISTANT, .PLAIN,
   .PROMPT_ANSWER, .QUALITY, .SIMPLE_INSTRUCT, .SUMMARIZE, .WIZARD_LM,
   .WIZARD_MEGA]

/-- Python Enum value lookup `PromptType(s)`: the member whose `value`
equals `s`, or a ValueError (modelled as `none`) when `s` is outside the
closed set. This is the stdlib Enum behaviour applied to the members
declared in core.py. -/
def PromptType.ofValue (s : String) : Option PromptType :=
  PromptType.values.find? (fun t => t.value == s)

/-- The `LangChainMode` enumeration of core.py: ten members, in source
definition order, each carrying a string `value`. -/
inductive LangChainMode
  | ALL
  | CHAT_LLM
  | DISABLED
  | GITHUB_H2OGPT
  | H2O_DAI_DOCS
  | LLM
  | MY_DATA
  | USER_DATA
  | WIKI
  | WIKI_FULL
  deriving DecidableEq, Repr

/-- The string value attached to each `LangChainMode` member in core.py. -/
def LangChainMode.value : LangChainMode → String
  | .ALL => "All"
  | .CHAT_LLM => "ChatLLM"
  | .DISABLED => "Disabled"
  | .GITHUB_H2OGPT => "github h2oGPT"
  | .H2O_DAI_DOCS => "DriverlessAI docs"
  | .LLM => "LLM"
  | .MY_DATA => "MyData"
  | .USER_DATA => "UserData"
  | .WIKI => "wiki"
  | .WIKI_FULL => "wiki_full"

/-- All members of `LangChainMode`, in Python definition order. -/
def LangChainMode.values : List LangChainMode :=
  [.ALL, .CHAT_LLM, .DISABLED, .GITHUB_H2OGPT, .H2O_DAI_DOCS, .LLM,
   .MY_DATA, .USER_DATA, .WIKI, .WIKI_FULL]

/-- Python Enum value lookup `LangChainMode(s)`: the member whose `value`
equals `s`, or a ValueError (modelled as `none`) when `s` is outside the
closed set. -/
def LangChainMode.ofValue (s : String) : Option LangChainMode :=
  LangChainMode.values.find? (fun t => t.value == s)

/-- A Python value forwarded as one positional argument of the remote
call: the argument lists of core.py contain strings, booleans, ints,
floats (modelled as rationals, since they are only forwarded) and one
list of strings. -/
inductive GValue
  | str (s : String)
  | bool (b : Bool)
  | int (n : Int)
  | float (q : ℚ)
  | strList (l : List String)
  deriving DecidableEq, Repr

/-- The keyword parameters of `TextCompletion.create` and
`TextCompletion.create_async`, with the default values of the Python
signatures as field defaults. -/
structure CreateParams where
  prompt : String
  prompt_type : PromptType := PromptType.PLAIN
  input_context_for_instruction : String := ""
  enable_sampler : Bool := false
  temperature : ℚ := 1.0
  top_p : ℚ := 1.0
  top_k : Int := 40
  beams : ℚ := 1.0
  early_stopping : Bool := false
  min_output_length : Int := 0
  max_output_length : Int := 128
  max_time : Int := 180
  repetition_penalty : ℚ := 1.07
  number_returns : Int := 1
  system_pre_context : String := ""
  langchain_mode : LangChainMode := LangChainMode.DISABLED
  deriving DecidableEq, Repr

/-- The one remote submission a method body performs: the positional
argument list and the `api_name` keyword passed to
`gradio_client.Client.submit` through `Client._predict` or
`Client._predict_async`. -/
structure Request where
  args : List GValue
  api_name : String
  deriving DecidableEq, Repr

/-- Shallow embedding of the body of `TextCompletion.create` (core.py):
the locals of the "Not exposed parameters" block and the positional
argument list passed, in source order, to `self._client._predict` with
`api_name="/submit_nochat"`. -/
def TextCompletion.create (p : CreateParams) : Request :=
  let instruction := ""
  let input := ""
  let stream_output := false
  let prompt_dict := ""
  let chat_mode := false
  let langchain_top_k_docs : Int := 4
  let langchain_enable_chunk := true
  let langchain_chunk_size : Int := 512
  let langchain_document_choice := ["All"]
  { args :=
      [GValue.str instruction,
       GValue.str input,
       GValue.str p.system_pre_context,
       GValue.bool stream_output,
       GValue.str p.prompt_type.value,
       GValue.str prompt_dict,
       GValue.float p.temperature,
       GValue.float p.top_p,
       GValue.int p.top_k,
       GValue.float p.beams,
       GValue.int p.max_output_length,
       GValue.int p.min_output_length,
       GValue.bool p.early_stopping,
       GValue.int p.max_time,
       GValue.float p.repetition_penalty,
       GValue.int p.number_returns,
       GValue.bool p.enable_sampler,
       GValue.bool chat_mode,
       GValue.str p.prompt,
       GValue.str p.input_context_for_instruction,
       GValue.str p.langchain_mode.value,
       GValue.int langchain_top_k_docs,
       GValue.bool langchain_enable_chunk,
       GValue.int langchain_chunk_size,
       GValue.strList langchain_document_choice],
    api_name := "/submit_nochat" }

/-- Shallow embedding of the body of `TextCompletion.create_async`
(core.py), which repeats the same locals and the same positional argument
list, passed to `self._client._predict_async` with
`api_name="/submit_nochat"`. -/
def TextCompletion.create_async (p : CreateParams) : Request :=
  let instruction := ""
  let input := ""
  let stream_output := false
  let prompt_dict := ""
  let chat_mode := false
  let langchain_top_k_docs : Int := 4
  let langchain_enable_chunk := true
  let langchain_chunk_size : Int := 512
  let langchain_document_choice := ["All"]
  { args :=
      [GValue.str instruction,
       GValue.str input,
       GValue.str p.system_pre_context,
       GValue.bool stream_output,
       GValue.str p.prompt_type.value,
       GValue.str prompt_dict,
       GValue.float p.temperature,
       GValue.float p.top_p,
       GValue.int p.top_k,
       GValue.float p.beams,
       GValue.int p.max_output_length,
       GValue.int p.min_output_length,
       GValue.bool p.early_stopping,
       GValue.int p.max_time,
       GValue.float p.repetition_penalty,
       GValue.int p.number_returns,
       GValue.bool p.enable_sampler,
       GValue.bool chat_mode,
       GValue.str p.prompt,
       GValue.str p.input_context_for_instruction,
       GValue.str p.langchain_mode.value,
       GValue.int langchain_top_k_docs,
       GValue.bool langchain_enable_chunk,
       GValue.int langchain_chunk_size,
       GValue.strList langchain_document_choice],
    api_name := "/submit_nochat" }

/-- The `Client` of core.py: constructed from a server url and an
optional huggingface token, which configure the underlying
`gradio_client.Client` handle. No method of the module assigns to any
attribute after `__init__`. -/
structure Client where
  server_url : String
  huggingface_token : Option String
  deriving DecidableEq, Repr

/-- Operational state for the stateful embedding: the client handle, an
oracle giving the remote service's textual answer to each submission, and
the log of submissions performed so far through the transport. -/
structure ClientState where
  client : Client
  remote : Request → String
  submissions : List Request

/-- Shallow embedding of `Client._predict`: submit the positional
arguments under `api_name` (one submission appended to the log) and block
for the textual result. The client handle is read, never written. -/
def Client.predict (st : ClientState) (args : List GValue) (api_name : String) :
    ClientState × String :=
  let r : Request := { args := args, api_name := api_name }
  ({ st with submissions := st.submissions ++ [r] }, st.remote r)

/-- Shallow embedding of `Client._predict_async`: the same single
`submit` call as `Client._predict`, awaited through
`asyncio.wrap_future` instead of blocking on `.result()`. -/
def Client.predict_async (st : ClientState) (args : List GValue) (api_name : String) :
    ClientState × String :=
  let r : Request := { args := args, api_name := api_name }
  ({ st with submissions := st.submissions ++ [r] }, st.remote r)

/-- `TextCompletion.create` run against a client state: the method body
builds its positional arguments and performs exactly the one
`Client._predict` call, returning the remote result unprocessed. -/
def TextCompletion.createRun (st : ClientState) (p : CreateParams) :
    ClientState × String :=
  Client.predict st (TextCompletion.create p).args (TextCompletion.create p).api_name

/-- `TextCompletion.create_async` run against a client state: the method
body builds its positional arguments and performs exactly the one
`Client._predict_async` call, returning the remote result unprocessed. -/
def TextCompletion.create_asyncRun (st : ClientState) (p : CreateParams) :
    ClientState × String :=
  Client.predict_async st (TextCompletion.create_async p).args
    (TextCompletion.create_async p).api_name

/-- C1 (counterexample): the claim that the request builder produces
exactly 24 positional values is false: at the concrete call
`create(prompt="x")` (all other parameters at their defaults) the builder
produces 25 positional values, not 24. -/
theorem c1_exactly_24_values_is_false :
    ((TextCompletion.create { prompt := "x" }).args.length = 24) = False :=
  eq_false (by decide)

/-- C1 (amended): for every valid combination of caller-supplied
parameters, `TextCompletion.create` produces exactly 25 positional values,
in the fixed order instruction, input, systemPreContext, streamOutput,
promptTypeTag, promptDict, temperature, topP, topK, beams,
maxOutputLength, minOutputLength, earlyStopping, maxTime,
repetitionPenalty, numberReturns, enableSampler, chatMode, prompt,
inputContextForInstruction, langchainModeTag, langchainTopKDocs,
langchainEnableChunk, langchainChunkSize, langchainDocumentChoice. -/
theorem c1_builder_emits_25_values_in_fixed_order :
    ∀ p : CreateParams,
      (TextCompletion.create p).args =
        [GValue.str "",
         GValue.str "",
         GValue.str p.system_pre_context,
         GValue.bool false,
         GValue.str p.prompt_type.value,
         GValue.str "",
         GValue.float p.temperature,
         GValue.float p.top_p,
         GValue.int p.top_k,
         GValue.float p.beams,
         GValue.int p.max_output_length,
         GValue.int p.min_output_length,
         GValue.bool p.early_stopping,
         GValue.int p.max_time,
         GValue.float p.repetition_penalty,
         GValue.int p.number_returns,
         GValue.bool p.enable_sampler,
         GValue.bool false,
         GValue.str p.prompt,
         GValue.str p.input_context_for_instruction,
         GValue.str p.langchain_mode.value,
         GValue.int 4,
         GValue.bool true,
         GValue.int 512,
         GValue.strList ["All"]] ∧
      (TextCompletion.create p).args.length = 25 :=
  fun _ => ⟨rfl, rfl⟩

/-- C2: `create(prompt="Hello", prompt_type=INSTRUCT, temperature=0.5)`
with all other parameters at their defaults forwards exactly the
positional argument list `["", "", "", False, "instruct", "", 0.5, 1.0,
40, 1.0, 128, 0, False, 180, 1.07, 1, False, False, "Hello", "",
"Disabled", 4, True, 512, ["All"]]` to the remote endpoint
"/submit_nochat". -/
theorem c2_example_call_positional_args :
    TextCompletion.create
        { prompt := "Hello", prompt_type := PromptType.INSTRUCT,
          temperature := 0.5 } =
      { args :=
          [GValue.str "", GValue.str "", GValue.str "", GValue.bool false,
           GValue.str "instruct", GValue.str "", GValue.float 0.5,
           GValue.float 1.0, GValue.int 40, GValue.float 1.0,
           GValue.int 128, GValue.int 0, GValue.bool false, GValue.int 180,
           GValue.float 1.07, GValue.int 1, GValue.bool false,
           GValue.bool false, GValue.str "Hello", GValue.str "",
           GValue.str "Disabled", GValue.int 4, GValue.bool true,
           GValue.int 512, GValue.strList ["All"]],
        api_name := "/submit_nochat" } :=
  rfl

/-- C3: for every identical assignment of the public parameters, the
blocking `create` and the suspending `create_async` build identical
positional argument lists and route them to the same fixed endpoint
identifier "/submit_nochat". -/
theorem c3_create_and_create_async_agree :
    ∀ p : CreateParams,
      TextCompletion.create_async p = TextCompletion.create p ∧
      (TextCompletion.create p).api_name = "/submit_nochat" :=
  fun _ => ⟨rfl, rfl⟩

/-- C4: on every call to `create` or `create_async`, regardless of the
caller-supplied parameters, the 8 hidden fields forwarded to the endpoint
equal their constants: instruction = "", input = "", streamOutput = false,
promptDict = "", chatMode = false, langchainTopKDocs = 4,
langchainEnableChunk = true, langchainChunkSize = 512 (positions 0, 1, 3,
5, 17, 21, 22, 23 of the positional list). -/
theorem c4_hidden_fields_constant :
    ∀ p : CreateParams,
      (TextCompletion.create p).args[0]? = some (GValue.str "") ∧
      (TextCompletion.create p).args[1]? = some (GValue.str "") ∧
      (TextCompletion.create p).args[3]? = some (GValue.bool false) ∧
      (TextCompletion.create p).args[5]? = some (GValue.str "") ∧
      (TextCompletion.create p).args[17]? = some (GValue.bool false) ∧
      (TextCompletion.create p).args[21]? = some (GValue.int 4) ∧
      (TextCompletion.create p).args[22]? = some (GValue.bool true) ∧
      (TextCompletion.create p).args[23]? = some (GValue.int 512) ∧
      (TextCompletion.create_async p).args[0]? = some (GValue.str "") ∧
      (TextCompletion.create_async p).args[1]? = some (GValue.str "") ∧
      (TextCompletion.create_async p).args[3]? = some (GValue.bool false) ∧
      (TextCompletion.create_async p).args[5]? = some (GValue.str "") ∧
      (TextCompletion.create_async p).args[17]? = some (GValue.bool false) ∧
      (TextCompletion.create_async p).args[21]? = some (GValue.int 4) ∧
      (TextCompletion.create_async p).args[22]? = some (GValue.bool true) ∧
      (TextCompletion.create_async p).args[23]? = some (GValue.int 512) :=
  fun _ =>
    ⟨rfl, rfl, rfl, rfl, rfl, rfl, rfl, rfl,
     rfl, rfl, rfl, rfl, rfl, rfl, rfl, rfl⟩

/-- C5: on every call to `create` or `create_async`, the langchain
document-choice value forwarded as the final positional argument is the
single-element sequence ["All"]; no public parameter influences it. -/
theorem c5_document_choice_always_all :
    ∀ p : CreateParams,
      (TextCompletion.create p).args.getLast? =
        some (GValue.strList ["All"]) ∧
      (TextCompletion.create_async p).args.getLast? =
        some (GValue.strList ["All"]) :=
  fun _ => ⟨rfl, rfl⟩

/-- C6: the enumerations are closed sets: Python Enum value lookup
(`PromptType(s)`, `LangChainMode(s)`) succeeds exactly when the supplied
string is one of the declared member values, and fails (ValueError,
before any request is built or any network activity happens) exactly when
it is outside the set. -/
theorem c6_enum_lookup_closed_sets :
    ∀ s : String,
      ((PromptType.ofValue s).isSome ↔
        s ∈ PromptType.values.map PromptType.value) ∧
      ((LangChainMode.ofValue s).isSome ↔
        s ∈ LangChainMode.values.map LangChainMode.value) := by
  intro s
  constructor
  · simp [PromptType.ofValue, List.mem_map]
  · simp [LangChainMode.ofValue, List.mem_map]

/-- C7: every run of `create` or `create_async` appends exactly one
submission to the transport log, returns the remote result unprocessed,
and leaves the client handle unchanged (the `Client` is never mutated
after construction). -/
theorem c7_single_submission_no_mutation :
    ∀ (st : ClientState) (p : CreateParams),
      (TextCompletion.createRun st p).1.client = st.client ∧
      (TextCompletion.createRun st p).1.remote = st.remote ∧
      (TextCompletion.createRun st p).1.submissions =
        st.submissions ++ [TextCompletion.create p] ∧
      (TextCompletion.createRun st p).2 =
        st.remote (TextCompletion.create p) ∧
      (TextCompletion.create_asyncRun st p).1.client = st.client ∧
      (TextCompletion.create_asyncRun st p).1.remote = st.remote ∧
      (TextCompletion.create_asyncRun st p).1.submissions =
        st.submissions ++ [TextCompletion.create_async p] ∧
      (TextCompletion.create_asyncRun st p).2 =
        st.remote (TextCompletion.create_async p) :=
  fun _ _ => ⟨rfl, rfl, rfl, rfl, rfl, rfl, rfl, rfl⟩

/-- C8: a call to `create` or `create_async` that supplies only the
prompt forwards the defaults: prompt-type tag "plain",
input_context_for_instruction "", enable_sampler false, temperature 1.0,
top_p 1.0, top_k 40, beams 1.0, early_stopping false, min_output_length
0, max_output_length 128, max_time 180, repetition_penalty 1.07,
number_returns 1, system_pre_context "", langchain-mode tag
"Disabled". -/
theorem c8_default_values_forwarded :
    ∀ s : String,
      TextCompletion.create { prompt := s } =
        { args :=
            [GValue.str "", GValue.str "", GValue.str "", GValue.bool false,
             GValue.str "plain", GValue.str "", GValue.float 1.0,
             GValue.float 1.0, GValue.int 40, GValue.float 1.0,
             GValue.int 128, GValue.int 0, GValue.bool false,
             GValue.int 180, GValue.float 1.07, GValue.int 1,
             GValue.bool false, GValue.bool false, GValue.str s,
             GValue.str "", GValue.str "Disabled", GValue.int 4,
             GValue.bool true, GValue.int 512, GValue.strList ["All"]],
          api_name := "/submit_nochat" } ∧
      TextCompletion.create_async { prompt := s } =
        TextCompletion.create { prompt := s } :=
  fun _ => ⟨rfl, rfl⟩

/-- C9: the empty prompt is not rejected or validated locally: it is
forwarded verbatim as the 19th positional value (index 18), and the
request built for it is the same as for any other prompt except at that
one position, with the same endpoint name, for both `create` and
`create_async`. -/
theorem c9_empty_prompt_forwarded_verbatim :
    ∀ p : CreateParams,
      (TextCompletion.create p).args[18]? = some (GValue.str p.prompt) ∧
      (TextCompletion.create_async p).args[18]? =
        some (GValue.str p.prompt) ∧
      (TextCompletion.create { p with prompt := "" }).args =
        (TextCompletion.create p).args.set 18 (GValue.str "") ∧
      (TextCompletion.create { p with prompt := "" }).api_name =
        (TextCompletion.create p).api_name ∧
      (TextCompletion.create_async { p with prompt := "" }).args =
        (TextCompletion.create_async p).args.set 18 (GValue.str "") ∧
      (TextCompletion.create_async { p with prompt := "" }).api_name =
        (TextCompletion.create_async p).api_name :=
  fun _ => ⟨rfl, rfl, rfl, rfl, rfl, rfl⟩

/-- C10: `PromptType` has exactly 15 distinct members, none of whose
values is "custom"; `LangChainMode` has exactly 10 distinct members; and
consequently the forwarded promptDict value (position 5) is the empty
string on every call. -/
theorem c10_enum_sizes_and_empty_prompt_dict :
    PromptType.values.length = 15 ∧
    PromptType.values.Nodup ∧
    (∀ t : PromptType, t ∈ PromptType.values) ∧
    (PromptType.values.all (fun t => t.value != "custom")) = true ∧
    LangChainMode.values.length = 10 ∧
    LangChainMode.values.Nodup ∧
    (∀ m : LangChainMode, m ∈ LangChainMode.values) ∧
    ∀ p : CreateParams,
      (TextCompletion.create p).args[5]? = some (GValue.str "") :=
  ⟨rfl, by decide, fun t => by cases t <;> decide, by decide,
   rfl, by decide, fun m => by cases m <;> decide, fun _ => rfl⟩

end H2ogptClient
